import Mathlib

/-!
Verification of the menu-command dispatch and target-seeking update of the
airborne-crew demo application.  The handlers in `src/domain_functions.cpp`
(`showInfo`, `startProgram`, `finishProgram`, `saveFile`, `moveCircle`) are
embedded as pure state transformers; external collaborators (the native save
dialog, the filesystem, the GUI container) are made explicit as inputs,
outputs and event traces.
-/

namespace Airborne

/-- 2D vector with exact rational coordinates, embedding `sf::Vector2f`
(the code performs a single componentwise subtraction, which is exact). -/
structure Vec2 where
  x : ℚ
  y : ℚ
deriving DecidableEq, Repr

instance : Sub Vec2 where
  sub a b := ⟨a.x - b.x, a.y - b.y⟩

theorem Vec2.sub_def (a b : Vec2) : a - b = ⟨a.x - b.x, a.y - b.y⟩ := rfl

/-- RGBA color, embedding `sf::Color`. -/
structure Color where
  r : Nat
  g : Nat
  b : Nat
  a : Nat
deriving DecidableEq, Repr

/-- `sf::Color::Red`. -/
def Color.Red : Color := ⟨255, 0, 0, 255⟩

/-- `sf::Color::White`, the default fill color of an `sf::CircleShape`. -/
def Color.White : Color := ⟨255, 255, 255, 255⟩

/-- Embedding of `sf::CircleShape`: geometry (radius), position and fill. -/
structure CircleShape where
  radius : ℚ
  position : Vec2
  fillColor : Color
deriving DecidableEq, Repr

/-- `sf::CircleShape c(r)`: default position (0,0), default fill white. -/
def CircleShape.create (r : ℚ) : CircleShape := ⟨r, ⟨0, 0⟩, Color.White⟩

/-- `c.setPosition(p)`. -/
def CircleShape.setPosition (c : CircleShape) (p : Vec2) : CircleShape :=
  { c with position := p }

/-- `c.setFillColor(col)`. -/
def CircleShape.setFillColor (c : CircleShape) (col : Color) : CircleShape :=
  { c with fillColor := col }

/-- Modelled from the spec: the class `objects::Plane` is declared outside the
provided sources (only `domain_functions.cpp` uses it).  Per §3 of the spec the
MovableEntity holds a replaceable drawable `shape`, a boolean draw flag
`visible`, a current `position` mutated only by an external stepping process,
and a `targetPosition`. -/
structure Plane where
  primitive : Option CircleShape
  toDraw : Bool
  position : Vec2
  targetPosition : Vec2
deriving DecidableEq, Repr

/-- Modelled from the spec: `plane.SetPrimitive(c)` replaces the shape
wholesale and changes nothing else. -/
def Plane.SetPrimitive (p : Plane) (c : CircleShape) : Plane :=
  { p with primitive := some c }

/-- Modelled from the spec: `plane.SetToDraw(b)` sets the visibility flag. -/
def Plane.SetToDraw (p : Plane) (b : Bool) : Plane :=
  { p with toDraw := b }

/-- Modelled from the spec: `plane.SetTargetPosition(v)` sets the desired
coordinate the entity is animated toward. -/
def Plane.SetTargetPosition (p : Plane) (v : Vec2) : Plane :=
  { p with targetPosition := v }

/-- Modelled from the spec: the constant `objects::CIRCLE_SIZE` is declared
outside the provided sources.  Per §4.2 it is the fixed `centerOffset`, half
the entity's fixed visual size: the circle has radius 50, visual size 100,
so the offset is (50,50). -/
def CIRCLE_SIZE : Vec2 := ⟨50, 50⟩

/-- The guard every handler uses:
`menuItem.size() == 2 && menuItem[0] == c && menuItem[1] == a`
with exact case-sensitive string equality. -/
def menuMatches (menuItem : List String) (c a : String) : Bool :=
  menuItem.length == 2 && menuItem.getD 0 "" == c && menuItem.getD 1 "" == a

theorem menuMatches_iff (m : List String) (c a : String) :
    menuMatches m c a = true ↔ m = [c, a] := by
  match m with
  | [] => simp [menuMatches]
  | [x] => simp [menuMatches]
  | [x, y] => simp [menuMatches, List.getD, and_assoc]
  | _ :: _ :: _ :: _ => simp [menuMatches]

/-- Alignment of the message-box buttons (`tgui::MessageBox::Alignment`). -/
inductive Alignment where
  | Left
  | Center
  | Right
deriving DecidableEq, Repr

/-- Embedding of a `tgui::MessageBox`: layout string, text, buttons,
button alignment. -/
structure MessageBox where
  positionLayout : String
  text : String
  buttons : List String
  buttonAlignment : Alignment
deriving DecidableEq, Repr

/-- The GUI container.  Widgets carry a numeric identity so that `remove`
takes out exactly the widget instance the callback captured, as
`getParent()->remove(shared_from_this())` does; `nextId` supplies a fresh
identity on each `add`. -/
structure Gui where
  nextId : Nat
  widgets : List (Nat × MessageBox)
deriving DecidableEq, Repr

/-- `gui.add(widget)` appends the widget under a fresh identity. -/
def Gui.add (g : Gui) (m : MessageBox) : Gui :=
  ⟨g.nextId + 1, g.widgets ++ [(g.nextId, m)]⟩

/-- `container.remove(widget)`: take the widget with that identity out. -/
def Gui.remove (g : Gui) (id : Nat) : Gui :=
  { g with widgets := g.widgets.filter (fun w => w.1 ≠ id) }

/-- Well-formedness: every widget identity in the container predates
`nextId`, so each freshly added widget is distinct from all present ones. -/
def Gui.wf (g : Gui) : Bool :=
  g.widgets.all (fun w => w.1 < g.nextId)

/-- The message box built by `showInfo`: position layout
`(&.size - size) / 2`, the fixed credit text, a single OK button,
centered. -/
def aboutMessageBox : MessageBox :=
  { positionLayout := "(&.size - size) / 2"
    text := "This program was developed by comrademashkov"
    buttons := ["OK"]
    buttonAlignment := Alignment.Center }

/-- `showInfo(gui, menuItem)`: on ("Info","About") build the about message
box and add it to the GUI container; otherwise do nothing. -/
def showInfo (gui : Gui) (menuItem : List String) : Gui :=
  if menuMatches menuItem "Info" "About" then gui.add aboutMessageBox
  else gui

/-- The `onButtonPress` callback installed by `showInfo`: the captured
message box removes itself from its parent container
(`msgBox->getParent()->remove(msgBox->shared_from_this())`),
whichever button was pressed. -/
def aboutOnButtonPress (parent : Gui) (id : Nat) (_button : String) : Gui :=
  parent.remove id

/-- `startProgram(plane, menuItem)`: on ("Program","Start") build a red
circle of radius 50 at (50,50), install it as the primitive, set the draw
flag, and set the target position to (50,50); otherwise do nothing. -/
def startProgram (plane : Plane) (menuItem : List String) : Plane :=
  if menuMatches menuItem "Program" "Start" then
    let c := ((CircleShape.create 50).setPosition ⟨50, 50⟩).setFillColor Color.Red
    ((plane.SetPrimitive c).SetToDraw true).SetTargetPosition ⟨50, 50⟩
  else plane

/-- `finishProgram(plane, menuItem)`: on ("Program","Finish") clear the
draw flag; otherwise do nothing. -/
def finishProgram (plane : Plane) (menuItem : List String) : Plane :=
  if menuMatches menuItem "Program" "Finish" then plane.SetToDraw false
  else plane

/-- Filesystem operations the save flow invokes, as an event trace.  The
path of an open is `Option String` because `tinyfd_saveFileDialog` returns a
null pointer when the dialog is cancelled and the code passes that pointer
straight to the `std::ofstream` constructor. -/
inductive FsEvent where
  | openForWrite : Option String → FsEvent
  | writeData : String → FsEvent
  | closeFile : FsEvent
deriving DecidableEq, Repr

/-- The filesystem: an association of paths to contents. -/
abbrev FS := List (String × String)

/-- Contents of the file at `path`, if present. -/
def lookupFile (fs : FS) (path : String) : Option String :=
  (fs.find? (fun e => e.1 == path)).map Prod.snd

/-- Truncating open + write: the file at `path` now holds exactly
`content`, any prior entry for `path` gone. -/
def setFile (fs : FS) (path content : String) : FS :=
  (path, content) :: fs.filter (fun e => e.1 ≠ path)

/-- `saveFile(filename, menuItem)`: on ("File","Save") call the native save
dialog (its reply is the explicit input `dialogResult`, `none` when
cancelled), then unconditionally construct `std::ofstream ofs(file_path)`,
stream `"TEST\n"` and close — there is no null check, so on cancellation an
open with a null path is still attempted.  A null-path open leaves the
stream in a failed state, so the streamed bytes never reach the filesystem;
on a confirmed path the open truncates and the file ends up holding exactly
`"TEST\n"`.  Returns the filesystem after the flow and the trace of
filesystem operations invoked. -/
def saveFile (fs : FS) (_filename : String) (menuItem : List String)
    (dialogResult : Option String) : FS × List FsEvent :=
  if menuMatches menuItem "File" "Save" then
    match dialogResult with
    | some path =>
        (setFile fs path "TEST\n",
         [FsEvent.openForWrite (some path), FsEvent.writeData "TEST\n",
          FsEvent.closeFile])
    | none =>
        (fs,
         [FsEvent.openForWrite none, FsEvent.writeData "TEST\n",
          FsEvent.closeFile])
  else (fs, [])

/-- `moveCircle(plane, mousePosition)`: set the target position to
`mousePosition - CIRCLE_SIZE`, unconditionally. -/
def moveCircle (plane : Plane) (mousePosition : Vec2) : Plane :=
  plane.SetTargetPosition (mousePosition - CIRCLE_SIZE)

/-- The shared application state the handlers touch. -/
structure AppState where
  gui : Gui
  plane : Plane
  fs : FS
  filename : String
deriving DecidableEq

/-- Modelled from the spec: the wiring of the host event loop to the
handlers is outside the provided sources.  Per §2 a menu activation reaches
the Command Router, which is the four handlers together; each handler
re-checks the path itself, so a dispatch runs all four on the shared
state. -/
def commandRouter (s : AppState) (menuItem : List String)
    (dialogResult : Option String) : AppState × List FsEvent :=
  let g := showInfo s.gui menuItem
  let p := finishProgram (startProgram s.plane menuItem) menuItem
  let fe := saveFile s.fs s.filename menuItem dialogResult
  (⟨g, p, fe.1, s.filename⟩, fe.2)

/-- How many of the four recognized guards a menu path satisfies. -/
def recognizedCount (menuItem : List String) : Nat :=
  (List.countP (fun b => b)
    [menuMatches menuItem "Info" "About",
     menuMatches menuItem "Program" "Start",
     menuMatches menuItem "Program" "Finish",
     menuMatches menuItem "File" "Save"])

/-- A menu path unequal to `[c, a]` fails the handler guard. -/
theorem menuMatches_eq_false {m : List String} {c a : String} (h : m ≠ [c, a]) :
    menuMatches m c a = false := by
  rcases hb : menuMatches m c a
  · rfl
  · exact absurd ((menuMatches_iff m c a).mp hb) h

/-- A menu path whose length is not 2 fails every handler guard. -/
theorem menuMatches_eq_false_of_length {m : List String} (h : m.length ≠ 2)
    (c a : String) : menuMatches m c a = false := by
  rcases hb : menuMatches m c a
  · rfl
  · have hm := (menuMatches_iff m c a).mp hb
    subst hm
    exact absurd rfl h

/-- When no guard fires, each handler leaves its state alone and the save
flow touches no file. -/
theorem handlers_noop_of_no_match (g : Gui) (p : Plane) (fs : FS)
    (fn : String) (d : Option String) (m : List String)
    (h1 : menuMatches m "Info" "About" = false)
    (h2 : menuMatches m "Program" "Start" = false)
    (h3 : menuMatches m "Program" "Finish" = false)
    (h4 : menuMatches m "File" "Save" = false) :
    showInfo g m = g ∧ startProgram p m = p ∧ finishProgram p m = p ∧
    saveFile fs fn m d = (fs, []) := by
  refine ⟨?_, ?_, ?_, ?_⟩ <;>
    simp [showInfo, startProgram, finishProgram, saveFile, h1, h2, h3, h4]

/-- When no guard fires, a router dispatch is the identity with no
filesystem events. -/
theorem commandRouter_noop_of_no_match (s : AppState) (d : Option String)
    (m : List String)
    (h1 : menuMatches m "Info" "About" = false)
    (h2 : menuMatches m "Program" "Start" = false)
    (h3 : menuMatches m "Program" "Finish" = false)
    (h4 : menuMatches m "File" "Save" = false) :
    commandRouter s m d = (s, []) := by
  obtain ⟨hg, hp1, hp2, hf⟩ :=
    handlers_noop_of_no_match s.gui s.plane s.fs s.filename d m h1 h2 h3 h4
  simp [commandRouter, hg, hp1, hp2, hf]

/-- The four recognized guards are mutually exclusive. -/
theorem recognizedCount_le_one (m : List String) : recognizedCount m ≤ 1 := by
  by_cases h1 : m = ["Info", "About"]
  · subst h1; decide
  by_cases h2 : m = ["Program", "Start"]
  · subst h2; decide
  by_cases h3 : m = ["Program", "Finish"]
  · subst h3; decide
  by_cases h4 : m = ["File", "Save"]
  · subst h4; decide
  simp [recognizedCount, menuMatches_eq_false h1, menuMatches_eq_false h2,
    menuMatches_eq_false h3, menuMatches_eq_false h4]

/-- `startProgram` never touches the current position. -/
theorem startProgram_position (plane : Plane) (m : List String) :
    (startProgram plane m).position = plane.position := by
  unfold startProgram
  split <;> rfl

/-- `finishProgram` never touches the current position. -/
theorem finishProgram_position (plane : Plane) (m : List String) :
    (finishProgram plane m).position = plane.position := by
  unfold finishProgram
  split <;> rfl

/-- Sample fixtures used by witness theorems. -/
def samplePlane : Plane := ⟨none, false, ⟨0, 0⟩, ⟨0, 0⟩⟩

def sampleGui : Gui := ⟨0, []⟩

def sampleState : AppState := ⟨sampleGui, samplePlane, [], "out.txt"⟩

/-- C1: every pointer-move with coordinate P sets the entity's target
position to exactly P - centerOffset, where the center offset is the fixed
constant (50,50) — half the visual size 100 of the radius-50 circle. -/
theorem moveCircle_sets_target (plane : Plane) (P : Vec2) :
    (moveCircle plane P).targetPosition = P - CIRCLE_SIZE ∧
    CIRCLE_SIZE = ⟨50, 50⟩ ∧
    (moveCircle plane P).targetPosition = ⟨P.x - 50, P.y - 50⟩ :=
  ⟨rfl, rfl, rfl⟩

/-- C2: on File/Save with the dialog cancelled (null path) the code still
attempts to open a file — it passes the null pointer straight to the
`std::ofstream` constructor — though the failed open means no bytes reach
the filesystem.  Evaluated at a concrete prior filesystem. -/
theorem saveFile_cancel_attempts_open :
    saveFile [("old.txt", "prior")] "file.txt" ["File", "Save"] none =
      ([("old.txt", "prior")],
       [FsEvent.openForWrite none, FsEvent.writeData "TEST\n",
        FsEvent.closeFile]) := rfl

/-- C3: dispatching ("Program","Start") replaces the shape with a red
circle of radius 50 positioned at (50,50), sets the draw flag, and sets the
target position to (50,50), regardless of prior state. -/
theorem startProgram_start_effect (s : AppState) (d : Option String)
    (plane : Plane) :
    startProgram plane ["Program", "Start"] =
      { plane with
        primitive := some ⟨50, ⟨50, 50⟩, Color.Red⟩
        toDraw := true
        targetPosition := ⟨50, 50⟩ } ∧
    (commandRouter s ["Program", "Start"] d).1.plane =
      { s.plane with
        primitive := some ⟨50, ⟨50, 50⟩, Color.Red⟩
        toDraw := true
        targetPosition := ⟨50, 50⟩ } ∧
    (commandRouter s ["Program", "Start"] d).1.plane.toDraw = true ∧
    (commandRouter s ["Program", "Start"] d).1.plane.targetPosition =
      ⟨50, 50⟩ :=
  ⟨rfl, rfl, rfl, rfl⟩

/-- C4: dispatching ("Program","Finish") clears the draw flag and leaves
the target position and shape unchanged, regardless of prior state. -/
theorem finishProgram_finish_effect (s : AppState) (d : Option String)
    (plane : Plane) :
    finishProgram plane ["Program", "Finish"] =
      { plane with toDraw := false } ∧
    (finishProgram plane ["Program", "Finish"]).targetPosition =
      plane.targetPosition ∧
    (finishProgram plane ["Program", "Finish"]).primitive =
      plane.primitive ∧
    (commandRouter s ["Program", "Finish"] d).1.plane =
      { s.plane with toDraw := false } ∧
    (commandRouter s ["Program", "Finish"] d).1.plane.targetPosition =
      s.plane.targetPosition ∧
    (commandRouter s ["Program", "Finish"] d).1.plane.primitive =
      s.plane.primitive :=
  ⟨rfl, rfl, rfl, rfl, rfl, rfl⟩

/-- C5: for a menu path equal (by exact case-sensitive comparison) to none
of the four recognized pairs, every handler is a no-op — no state mutation
and no filesystem events — a router dispatch is the identity, and for any
path at most one recognized guard fires. -/
theorem router_unrecognized_noop (s : AppState) (d : Option String)
    (g : Gui) (p : Plane) (fs : FS) (fn : String) (m : List String)
    (h1 : m ≠ ["Info", "About"]) (h2 : m ≠ ["Program", "Start"])
    (h3 : m ≠ ["Program", "Finish"]) (h4 : m ≠ ["File", "Save"]) :
    showInfo g m = g ∧ startProgram p m = p ∧ finishProgram p m = p ∧
    saveFile fs fn m d = (fs, []) ∧
    commandRouter s m d = (s, []) ∧
    (∀ m2 : List String, recognizedCount m2 ≤ 1) := by
  obtain ⟨hg, hp1, hp2, hf⟩ :=
    handlers_noop_of_no_match g p fs fn d m (menuMatches_eq_false h1)
      (menuMatches_eq_false h2) (menuMatches_eq_false h3)
      (menuMatches_eq_false h4)
  exact ⟨hg, hp1, hp2, hf,
    commandRouter_noop_of_no_match s d m (menuMatches_eq_false h1)
      (menuMatches_eq_false h2) (menuMatches_eq_false h3)
      (menuMatches_eq_false h4),
    recognizedCount_le_one⟩

/-- Witness for C5: the lowercase path ["program","start"] is unrecognized
(matching is case-sensitive) and the dispatch is a no-op on it. -/
theorem router_unrecognized_noop_witness :
    ((["program", "start"] : List String) ≠ ["Info", "About"] ∧
     (["program", "start"] : List String) ≠ ["Program", "Start"] ∧
     (["program", "start"] : List String) ≠ ["Program", "Finish"] ∧
     (["program", "start"] : List String) ≠ ["File", "Save"]) ∧
    (showInfo sampleGui ["program", "start"] = sampleGui ∧
     startProgram samplePlane ["program", "start"] = samplePlane ∧
     finishProgram samplePlane ["program", "start"] = samplePlane ∧
     saveFile [] "out.txt" ["program", "start"] none = ([], []) ∧
     commandRouter sampleState ["program", "start"] none =
       (sampleState, []) ∧
     (∀ m2 : List String, recognizedCount m2 ≤ 1)) :=
  ⟨⟨by decide, by decide, by decide, by decide⟩,
   router_unrecognized_noop sampleState none sampleGui samplePlane []
     "out.txt" ["program", "start"] (by decide) (by decide) (by decide)
     (by decide)⟩

/-- C6: on File/Save with a confirmed path F, the resulting filesystem is
exactly the truncating write of "TEST\n" at F: looking F up afterwards
yields exactly that content, whatever (and despite) any prior file at F. -/
theorem saveFile_confirm_writes (fs : FS) (fn F : String) :
    (saveFile fs fn ["File", "Save"] (some F)).1 = setFile fs F "TEST\n" ∧
    lookupFile (saveFile fs fn ["File", "Save"] (some F)).1 F =
      some "TEST\n" := by
  refine ⟨rfl, ?_⟩
  show lookupFile (setFile fs F "TEST\n") F = some "TEST\n"
  simp [lookupFile, setFile]

/-- C7: dispatching ("Info","About") adds to the GUI container a message
box with the fixed credit text and the single OK button; pressing the
button removes exactly that box, restoring the container's widget list. -/
theorem showInfo_about_dialog (g : Gui) (b : String) (h : g.wf = true) :
    showInfo g ["Info", "About"] =
      ⟨g.nextId + 1, g.widgets ++ [(g.nextId, aboutMessageBox)]⟩ ∧
    aboutMessageBox.text = "This program was developed by comrademashkov" ∧
    aboutMessageBox.buttons = ["OK"] ∧
    (aboutOnButtonPress (showInfo g ["Info", "About"]) g.nextId b).widgets =
      g.widgets := by
  refine ⟨rfl, rfl, rfl, ?_⟩
  show ((g.add aboutMessageBox).remove g.nextId).widgets = g.widgets
  simp only [Gui.add, Gui.remove, List.filter_append]
  have hall := List.all_eq_true.mp h
  rw [List.filter_eq_self.mpr]
  · simp
  · intro w hw
    have := hall w hw
    simp at this ⊢
    omega

/-- Witness for C7 at the empty (well-formed) container. -/
theorem showInfo_about_dialog_witness :
    sampleGui.wf = true ∧
    (showInfo sampleGui ["Info", "About"] =
      ⟨sampleGui.nextId + 1,
       sampleGui.widgets ++ [(sampleGui.nextId, aboutMessageBox)]⟩ ∧
     aboutMessageBox.text = "This program was developed by comrademashkov" ∧
     aboutMessageBox.buttons = ["OK"] ∧
     (aboutOnButtonPress (showInfo sampleGui ["Info", "About"])
        sampleGui.nextId "OK").widgets = sampleGui.widgets) :=
  ⟨by decide, showInfo_about_dialog sampleGui "OK" (by decide)⟩

/-- C8: no dispatch, for any menu path, and no pointer-move ever changes
the entity's current position field. -/
theorem position_untouched (s : AppState) (m : List String)
    (d : Option String) (plane : Plane) (P : Vec2) :
    (commandRouter s m d).1.plane.position = s.plane.position ∧
    (startProgram plane m).position = plane.position ∧
    (finishProgram plane m).position = plane.position ∧
    (moveCircle plane P).position = plane.position := by
  refine ⟨?_, startProgram_position plane m, finishProgram_position plane m,
    rfl⟩
  show (finishProgram (startProgram s.plane m) m).position = s.plane.position
  rw [finishProgram_position, startProgram_position]

/-- C9: a menu-item list whose length is not exactly 2 makes every handler
a no-op (no mutation, no filesystem events), even when its first elements
match recognized labels. -/
theorem length_ne_two_noop (s : AppState) (d : Option String) (g : Gui)
    (p : Plane) (fs : FS) (fn : String) (m : List String)
    (h : m.length ≠ 2) :
    showInfo g m = g ∧ startProgram p m = p ∧ finishProgram p m = p ∧
    saveFile fs fn m d = (fs, []) ∧ commandRouter s m d = (s, []) := by
  obtain ⟨hg, hp1, hp2, hf⟩ :=
    handlers_noop_of_no_match g p fs fn d m
      (menuMatches_eq_false_of_length h "Info" "About")
      (menuMatches_eq_false_of_length h "Program" "Start")
      (menuMatches_eq_false_of_length h "Program" "Finish")
      (menuMatches_eq_false_of_length h "File" "Save")
  exact ⟨hg, hp1, hp2, hf,
    commandRouter_noop_of_no_match s d m
      (menuMatches_eq_false_of_length h "Info" "About")
      (menuMatches_eq_false_of_length h "Program" "Start")
      (menuMatches_eq_false_of_length h "Program" "Finish")
      (menuMatches_eq_false_of_length h "File" "Save")⟩

/-- Witness for C9: ["Program","Start","extra"] has length 3 and every
handler ignores it. -/
theorem length_ne_two_noop_witness :
    (["Program", "Start", "extra"] : List String).length ≠ 2 ∧
    (showInfo sampleGui ["Program", "Start", "extra"] = sampleGui ∧
     startProgram samplePlane ["Program", "Start", "extra"] = samplePlane ∧
     finishProgram samplePlane ["Program", "Start", "extra"] =
       samplePlane ∧
     saveFile [] "out.txt" ["Program", "Start", "extra"] none = ([], []) ∧
     commandRouter sampleState ["Program", "Start", "extra"] none =
       (sampleState, [])) :=
  ⟨by decide,
   length_ne_two_noop sampleState none sampleGui samplePlane [] "out.txt"
     ["Program", "Start", "extra"] (by decide)⟩

/-- C10: `moveCircle` changes exactly the target position: it applies for
every pointer position and every prior state — in particular when the draw
flag is false — and every other field is untouched. -/
theorem moveCircle_unconditional (plane : Plane) (P : Vec2) :
    moveCircle plane P =
      { plane with targetPosition := P - CIRCLE_SIZE } ∧
    (moveCircle { plane with toDraw := false } P).targetPosition =
      P - CIRCLE_SIZE ∧
    (moveCircle plane P).toDraw = plane.toDraw ∧
    (moveCircle plane P).position = plane.position ∧
    (moveCircle plane P).primitive = plane.primitive :=
  ⟨rfl, rfl, rfl, rfl, rfl⟩

end Airborne
